import Mathlib

/-!
Shallow embedding of the Brief-Case browser-side integration layer
(payment, auth, messaging, appointments, reviews, lawyer search),
with theorems checking the natural-language specification against it.

Numbers that the source manipulates with ordinary arithmetic and
Math.round are modelled as rationals; Math.round (round half toward
positive infinity) coincides with Mathlib's round on rationals.
Backend (database) state is passed explicitly: each operation takes the
relevant table contents (and, where the source consults them, the
backend's responses) and returns its result together with the new state.
-/

namespace BriefCase

/-- JavaScript Math.round on a rational: the floor of x + 1/2 (round half
toward positive infinity), written with Rat.floor so that it evaluates. -/
def mathRound (x : ℚ) : ℤ :=
  (x + 1/2).num / ((x + 1/2).den : ℤ)

/-- mathRound agrees with Mathlib's round on every rational. -/
theorem mathRound_eq_round (x : ℚ) : mathRound x = round x := by
  rw [round_eq, Rat.floor_def, mathRound]

/-! ## Payment: fee calculation (payment.js, calculateTotalFee) -/

structure FeeBreakdown where
  consultationFee : ℚ
  serviceFee : ℚ
  total : ℚ
deriving DecidableEq

/-- Embeds payment.js calculateTotalFee: serviceFee and total are computed
unrounded, then each is passed through Math.round in the returned object. -/
def calculateTotalFee (consultationFee serviceFeePercentage : ℚ) : FeeBreakdown :=
  let serviceFee := consultationFee * serviceFeePercentage
  let total := consultationFee + serviceFee
  { consultationFee := consultationFee
    serviceFee := ((mathRound serviceFee : ℤ) : ℚ)
    total := ((mathRound total : ℤ) : ℚ) }

/-! ## Payment: Luhn card validation (payment.js, validateCardNumber) -/

/-- The digit characters of the input, as numbers (cardNumber.replace(/\D/g, '')
followed by parseInt on each position). -/
def cardDigits (cardNumber : String) : List Nat :=
  (cardNumber.data.filter Char.isDigit).map (fun c => c.toNat - 48)

/-- One doubled Luhn digit: digit *= 2; if (digit > 9) digit -= 9. -/
def luhnDouble (d : Nat) : Nat :=
  if 2 * d > 9 then 2 * d - 9 else 2 * d

/-- The loop of validateCardNumber: walks the digits from the last to the
first, doubling every second one; the accumulator flag starts false. -/
def luhnSumAux : Bool → List Nat → Nat
  | _, [] => 0
  | isEven, d :: rest =>
      (if isEven then luhnDouble d else d) + luhnSumAux (!isEven) rest

/-- Embeds payment.js validateCardNumber. -/
def validateCardNumber (cardNumber : String) : Bool :=
  let digits := cardDigits cardNumber
  if digits.length < 13 || digits.length > 19 then false
  else luhnSumAux false digits.reverse % 10 == 0

/-- The standard Luhn checksum as the spec states it: from the rightmost
digit, every second digit is doubled (subtracting 9 when the double
exceeds 9) and all are summed. Input: digits rightmost first. -/
def luhnChecksum : List Nat → Nat
  | [] => 0
  | [d] => d
  | d :: e :: rest => d + luhnDouble e + luhnChecksum rest

theorem luhnSumAux_false_eq (l : List Nat) :
    luhnSumAux false l = luhnChecksum l := by
  match l with
  | [] => rfl
  | [d] => simp [luhnSumAux, luhnChecksum]
  | d :: e :: rest =>
      simp [luhnSumAux, luhnChecksum, luhnSumAux_false_eq rest, Nat.add_assoc]

/-! ## Reviews: rating recomputation (app file, updateLawyerRating) -/

structure LawyerRow where
  id : String
  average_rating : ℚ
  total_reviews : Nat
deriving DecidableEq

/-- Embeds the successful path of updateLawyerRating: the pair written back
to the lawyers row. With no reviews the fixed defaults (5.0, 0) are
written; otherwise the ratings are summed with reduce, divided by the
count, and the average is rounded to one decimal via
Math.round(averageRating * 10) / 10. -/
def updateLawyerRating (ratings : List ℚ) (lw : LawyerRow) : LawyerRow :=
  if ratings.isEmpty then
    { lw with average_rating := 5, total_reviews := 0 }
  else
    let totalRating := ratings.foldl (fun sum r => sum + r) 0
    let averageRating := totalRating / (ratings.length : ℚ)
    let roundedAverage := ((mathRound (averageRating * 10) : ℤ) : ℚ) / 10
    { lw with average_rating := roundedAverage, total_reviews := ratings.length }

/-! ## Account: email validation (supabase-client.js, isValidEmail) -/

/-- Embeds the isValidEmail regular expression over whole strings:
one at-sign splitting the string into a nonempty whitespace-free local
part and a whitespace-free domain part that contains a dot which is
neither its first nor its last character. (The test is anchored at both
ends; the dot may be any of the domain's interior characters, so
"a@b.c." still matches via the earlier dot, which the embedding captures
by scanning all interior positions.) -/
def isValidEmail (email : String) : Bool :=
  match email.data.splitOn '@' with
  | [a, b] =>
      !a.isEmpty && a.all (fun c => !c.isWhitespace) &&
      b.all (fun c => !c.isWhitespace) &&
      ((b.dropLast).drop 1).contains '.'
  | _ => false

/-! ## Account: signup (app file, signUpWithVerification and signUp) -/

/-- JS String.prototype.includes. -/
def strIncludes (hay needle : String) : Bool :=
  hay.data.tails.any (fun t => needle.data.isPrefixOf t)

/-- JS String.prototype.toLowerCase, written over the character list so
that it evaluates by kernel reduction. -/
def jsToLower (s : String) : String :=
  ⟨s.data.map Char.toLower⟩

/-- JS String.prototype.trim, written over the character list. -/
def jsTrim (s : String) : String :=
  ⟨((s.data.dropWhile Char.isWhitespace).reverse.dropWhile Char.isWhitespace).reverse⟩

/-- One backend interaction performed by a signup flow, in order. -/
inductive BackendCall where
  | queryUsersByEmail (email : String)
  | authSignUp (email : String) (password : String)
  | uploadProfilePhoto
  | insertUserRow (userId : String)
  | insertLawyerRow (userId : String)
deriving DecidableEq

structure SignupParams where
  email : String
  password : String
  firstName : String
  lastName : String
  accountType : String
  cnic : String
deriving DecidableEq

/-- The slice of the auth user object the signup flows inspect. -/
structure AuthUser where
  id : String
  identitiesEmpty : Bool
  confirmedAt : Bool
deriving DecidableEq

/-- Backend responses the signup flows would receive, fixed up front:
whether the duplicate-email query finds a row, the auth.signUp outcome
(error message, or null user, or a user), whether the optional photo
upload succeeds, and the two profile-row insert outcomes. -/
structure AuthEnv where
  emailExists : Bool
  authError : Option String
  authUser : Option AuthUser
  photoUploadOk : Bool
  userInsertError : Option String
  lawyerInsertError : Option String
deriving DecidableEq

structure SignupResult where
  success : Bool
  needsConfirmation : Bool
  error : Option String
deriving DecidableEq

/-- The catch-block remapping of error messages in signUpWithVerification. -/
def remapVerificationError (msg : String) : String :=
  if strIncludes msg "duplicate key" || strIncludes msg "already exists" then
    "An account with this email already exists. Please login or use a different email."
  else if strIncludes msg "User already registered" then
    "An account with this email already exists. Please login or reset your password."
  else if strIncludes msg "violates foreign key constraint" then
    "Database configuration error. Please contact support."
  else if strIncludes msg "permission denied" then
    "Database permission error. Please contact support."
  else msg

/-- Failure result as produced by the catch block of signUpWithVerification. -/
def failVerification (msg : String) : SignupResult :=
  { success := false, needsConfirmation := false, error := some (remapVerificationError msg) }

/-- Embeds signUpWithVerification: the returned result together with the
ordered list of backend calls the run performs. Validation failures throw
before any backend interaction, so their traces are empty. -/
def signUpWithVerification (p : SignupParams) (env : AuthEnv) :
    SignupResult × List BackendCall :=
  let fullName := p.firstName ++ " " ++ p.lastName
  if p.email == "" || p.password == "" || fullName == "" || p.accountType == "" || p.cnic == "" then
    (failVerification "All fields are required", [])
  else if !(isValidEmail p.email) then
    (failVerification "Invalid email format", [])
  else if p.password.length < 8 then
    (failVerification "Password must be at least 8 characters", [])
  else if !(p.password.data.any Char.isUpper) then
    (failVerification "Password must contain at least one uppercase letter", [])
  else if !(p.password.data.any Char.isLower) then
    (failVerification "Password must contain at least one lowercase letter", [])
  else if !(p.password.data.any Char.isDigit) then
    (failVerification "Password must contain at least one number", [])
  else
    let calls0 := [BackendCall.queryUsersByEmail (jsToLower p.email)]
    if env.emailExists then
      (failVerification "An account with this email already exists. Please login or use a different email.", calls0)
    else
      let calls1 := calls0 ++ [BackendCall.authSignUp p.email p.password]
      match env.authError with
      | some msg =>
          if strIncludes msg "User already registered" then
            (failVerification "An account with this email already exists. Please login or reset your password.", calls1)
          else (failVerification msg, calls1)
      | none =>
          match env.authUser with
          | none => (failVerification "Failed to create user account", calls1)
          | some _ =>
              ({ success := true, needsConfirmation := true, error := none }, calls1)

/-- The catch-block remapping of error messages in the legacy signUp. -/
def remapLegacyError (msg : String) : String :=
  if strIncludes msg "duplicate key" || strIncludes msg "already exists" then
    "An account with this email already exists"
  else if strIncludes msg "violates foreign key constraint" then
    "Database configuration error. Please contact support."
  else if strIncludes msg "permission denied" then
    "Database permission error. Please contact support."
  else msg

/-- Failure result as produced by the catch block of the legacy signUp. -/
def failLegacy (msg : String) : SignupResult :=
  { success := false, needsConfirmation := false, error := some (remapLegacyError msg) }

/-- Embeds the legacy signUp: result plus ordered backend-call trace.
Validation here only requires the fields, a well-formed email, and a
6-character password; there is no character-class check. The non-fatal
photo upload appears in the trace but its failure is swallowed. -/
def signUp (email password fullName accountType cnic : String)
    (hasProfilePhoto : Bool) (env : AuthEnv) : SignupResult × List BackendCall :=
  if email == "" || password == "" || fullName == "" || accountType == "" || cnic == "" then
    (failLegacy "All fields are required", [])
  else if !(isValidEmail email) then
    (failLegacy "Invalid email format", [])
  else if password.length < 6 then
    (failLegacy "Password must be at least 6 characters", [])
  else
    let calls1 := [BackendCall.authSignUp email password]
    match env.authError with
    | some msg => (failLegacy msg, calls1)
    | none =>
        match env.authUser with
        | none => (failLegacy "Failed to create user account", calls1)
        | some u =>
            if !u.confirmedAt && u.identitiesEmpty then
              ({ success := true, needsConfirmation := true, error := none }, calls1)
            else
              let calls2 := calls1 ++ (if hasProfilePhoto then [BackendCall.uploadProfilePhoto] else [])
              let calls3 := calls2 ++ [BackendCall.insertUserRow u.id]
              match env.userInsertError with
              | some e => (failLegacy ("Failed to create user profile: " ++ e), calls3)
              | none =>
                  if jsToLower accountType == "lawyer" then
                    let calls4 := calls3 ++ [BackendCall.insertLawyerRow u.id]
                    match env.lawyerInsertError with
                    | some e => (failLegacy ("Failed to create lawyer profile: " ++ e), calls4)
                    | none => ({ success := true, needsConfirmation := false, error := none }, calls4)
                  else
                    ({ success := true, needsConfirmation := false, error := none }, calls3)

/-! ## Messaging: conversations (messaging.js, getOrCreateConversation) -/

/-- .single() / .maybeSingle() on a result set, as the callers observe it
through destructuring that ignores the error: data is non-null exactly
when the set has one row (zero rows: null data, maybeSingle without
error, single with error; two or more rows: error, null data). -/
def singleRowOrNone {α : Type} (rows : List α) : Option α :=
  match rows with
  | [r] => some r
  | _ => none

structure UserRow where
  id : String
  user_type : String
deriving DecidableEq

structure ConversationRow where
  id : Nat
  client_id : String
  lawyer_id : String
deriving DecidableEq

/-- from('users').select('user_type').eq('id', uid).single() followed by
the optional chaining profile?.user_type. -/
def userTypeOf (users : List UserRow) (uid : String) : Option String :=
  (singleRowOrNone (users.filter (fun u => u.id == uid))).map (fun u => u.user_type)

/-- The client/lawyer assignment at the top of getOrCreateConversation.
Both users' types are queried, but the branch looks only at the first
user's type: client makes (userId1, userId2), lawyer makes
(userId2, userId1), and anything else falls back to (userId1, userId2).
Returns (clientId, lawyerId). -/
def resolveRoles (users : List UserRow) (userId1 userId2 : String) : String × String :=
  let t1 := userTypeOf users userId1
  if t1 == some "client" then (userId1, userId2)
  else if t1 == some "lawyer" then (userId2, userId1)
  else (userId1, userId2)

structure MessagingDB where
  users : List UserRow
  conversations : List ConversationRow
  nextConversationId : Nat
deriving DecidableEq

structure ConvResult where
  success : Bool
  data : Option ConversationRow
  error : Option String
deriving DecidableEq

/-- Embeds getOrCreateConversation: resolve the roles, look for an
existing (client_id, lawyer_id) row with maybeSingle, return it if found,
otherwise insert a new row (the model gives it the next fresh id).
insertError injects the backend's response to the insert. -/
def getOrCreateConversation (db : MessagingDB) (userId1 userId2 : String)
    (insertError : Option String) : ConvResult × MessagingDB :=
  let roles := resolveRoles db.users userId1 userId2
  let clientId := roles.1
  let lawyerId := roles.2
  let existing := singleRowOrNone (db.conversations.filter
    (fun c => c.client_id == clientId && c.lawyer_id == lawyerId))
  match existing with
  | some conv => ({ success := true, data := some conv, error := none }, db)
  | none =>
      match insertError with
      | some e => ({ success := false, data := none, error := some e }, db)
      | none =>
          let newConv : ConversationRow :=
            { id := db.nextConversationId, client_id := clientId, lawyer_id := lawyerId }
          ({ success := true, data := some newConv, error := none },
           { db with conversations := db.conversations ++ [newConv],
                     nextConversationId := db.nextConversationId + 1 })

/-! ## Messaging: read-marking (messaging.js, markMessagesAsRead) -/

structure MessageRow where
  id : Nat
  conversation_id : Nat
  sender_id : String
  message_text : String
  is_read : Bool
  read_at : Option String
deriving DecidableEq

structure SimpleResult where
  success : Bool
  error : Option String
deriving DecidableEq

/-- The row transformation of markMessagesAsRead's update: every message
with the given conversation_id, a different sender, and is_read false
gets is_read true and read_at set to the current time. -/
def markMessagesAsReadState (msgs : List MessageRow) (conversationId : Nat)
    (userId : String) (now : String) : List MessageRow :=
  msgs.map fun m =>
    if m.conversation_id == conversationId && m.sender_id != userId && m.is_read == false
    then { m with is_read := true, read_at := some now }
    else m

/-- Embeds markMessagesAsRead: on a backend error the state is unchanged
and a failure result is returned, otherwise the bulk update applies. -/
def markMessagesAsRead (msgs : List MessageRow) (conversationId : Nat) (userId : String)
    (now : String) (updateError : Option String) : SimpleResult × List MessageRow :=
  match updateError with
  | some e => ({ success := false, error := some e }, msgs)
  | none => ({ success := true, error := none },
             markMessagesAsReadState msgs conversationId userId now)

/-! ## Appointments (app file, updateAppointment / cancelAppointment /
deleteAppointment) and payment processing (payment.js, processPayment) -/

structure AppointmentRow where
  id : Nat
  client_id : String
  lawyer_id : String
  appointment_date : String
  appointment_time : String
  title : String
  description : String
  meeting_type : String
  status : String
deriving DecidableEq

/-- An updates object handed to .update(updates): fields present in the
object overwrite the row's columns, absent fields are untouched. -/
structure AppointmentPatch where
  client_id : Option String
  lawyer_id : Option String
  appointment_date : Option String
  appointment_time : Option String
  title : Option String
  description : Option String
  meeting_type : Option String
  status : Option String
deriving DecidableEq

def applyPatch (p : AppointmentPatch) (r : AppointmentRow) : AppointmentRow :=
  { r with
    client_id := p.client_id.getD r.client_id
    lawyer_id := p.lawyer_id.getD r.lawyer_id
    appointment_date := p.appointment_date.getD r.appointment_date
    appointment_time := p.appointment_time.getD r.appointment_time
    title := p.title.getD r.title
    description := p.description.getD r.description
    meeting_type := p.meeting_type.getD r.meeting_type
    status := p.status.getD r.status }

/-- Embeds updateAppointment: update(updates).eq('id', id).select().single().
Every row whose id matches is patched; the returned data is the updated
row when exactly one matches, null otherwise (.single() errors on zero or
several rows, which the caller surfaces as a failure result). -/
def updateAppointment (db : List AppointmentRow) (appointmentId : Nat)
    (p : AppointmentPatch) : Option AppointmentRow × List AppointmentRow :=
  let newDb := db.map fun r => if r.id == appointmentId then applyPatch p r else r
  (singleRowOrNone (newDb.filter (fun r => r.id == appointmentId)), newDb)

/-- The {status: 'cancelled'} updates object of cancelAppointment. -/
def cancelPatch : AppointmentPatch :=
  { client_id := none, lawyer_id := none, appointment_date := none
    appointment_time := none, title := none, description := none
    meeting_type := none, status := some "cancelled" }

/-- Embeds cancelAppointment: updateAppointment with {status: 'cancelled'}. -/
def cancelAppointment (db : List AppointmentRow) (appointmentId : Nat) :
    Option AppointmentRow × List AppointmentRow :=
  updateAppointment db appointmentId cancelPatch

/-- Embeds deleteAppointment: delete().eq('id', id).select(); the result
is a failure when no row was deleted. -/
def deleteAppointment (db : List AppointmentRow) (appointmentId : Nat) :
    SimpleResult × List AppointmentRow :=
  let deleted := db.filter (fun r => r.id == appointmentId)
  let newDb := db.filter (fun r => !(r.id == appointmentId))
  if deleted.isEmpty then
    ({ success := false, error := some "Could not delete appointment. Check permissions." }, newDb)
  else
    ({ success := true, error := none }, newDb)

/-- Embeds payment.js generateTransactionId, with Date.now() and the
random base-36 fragment passed in explicitly. -/
def generateTransactionId (timestamp : Nat) (randomPart : String) : String :=
  "TXN-" ++ toString timestamp ++ "-" ++ randomPart

/-- The slice of the paymentData object processPayment inspects; a JS
falsy amount (absent, null, 0, NaN) is modelled as none for the purposes
of the !paymentData.amount test combined with amount <= 0 (both throw the
same error, which the model keeps as the single non-positive test). -/
structure PaymentData where
  amount : Option ℚ
  appointmentId : Option Nat
  paymentMethod : Option String
deriving DecidableEq

structure PaymentResult where
  success : Bool
  transactionId : Option String
  error : Option String
deriving DecidableEq

/-- Embeds processPayment: validation failures throw before the backend
update and leave the appointments table untouched; a successful run sets
the referenced appointment's status to confirmed and returns the
fabricated transaction id. -/
def processPayment (p : PaymentData) (db : List AppointmentRow)
    (timestamp : Nat) (randomPart : String) (updateError : Option String) :
    PaymentResult × List AppointmentRow :=
  match p.amount with
  | none => ({ success := false, transactionId := none, error := some "Invalid payment amount" }, db)
  | some a =>
      if a ≤ 0 then
        ({ success := false, transactionId := none, error := some "Invalid payment amount" }, db)
      else
        match p.appointmentId with
        | none => ({ success := false, transactionId := none, error := some "Appointment ID required" }, db)
        | some aid =>
            match updateError with
            | some e => ({ success := false, transactionId := none, error := some e }, db)
            | none =>
                ({ success := true,
                   transactionId := some (generateTransactionId timestamp randomPart),
                   error := none },
                 db.map fun r => if r.id == aid then { r with status := "confirmed" } else r)

/-! ## List-returning reads (payment.js getUserPaymentMethods,
messaging.js getUserConversations / getMessages, app file searchLawyers) -/

/-- The uniform result shape of the collection fetches. data is an Option
so that "the data field is always an array" is a statement, not a type
ascription: some [] is an empty array, none would be an absent field. -/
structure ListResult (α : Type) where
  success : Bool
  error : Option String
  data : Option (List α)
deriving DecidableEq

structure PaymentMethodRow where
  id : Nat
  user_id : String
  payment_type : String
  last_four_digits : String
  is_default : Bool
deriving DecidableEq

/-- Embeds getUserPaymentMethods over the backend's response to the
filtered, ordered select: an error, or the rows (null possible). -/
def getUserPaymentMethods (resp : Except String (Option (List PaymentMethodRow))) :
    ListResult PaymentMethodRow :=
  match resp with
  | .error e => { success := false, error := some e, data := some [] }
  | .ok rows => { success := true, error := none, data := some (rows.getD []) }

structure UserDetailRow where
  id : String
  first_name : String
  last_name : String
  profile_photo_url : Option String
deriving DecidableEq

structure MessageWithSender where
  message : MessageRow
  sender : Option UserDetailRow
deriving DecidableEq

/-- Embeds getMessages: the conversation's messages from the backend
(ascending created_at, limited server-side), each enriched with its
sender's details via a single()-style lookup whose error is ignored. -/
def getMessages (resp : Except String (Option (List MessageRow)))
    (users : List UserDetailRow) : ListResult MessageWithSender :=
  match resp with
  | .error e => { success := false, error := some e, data := some [] }
  | .ok msgs =>
      { success := true, error := none
        data := some ((msgs.getD []).map fun m =>
          { message := m
            sender := singleRowOrNone (users.filter (fun u => u.id == m.sender_id)) }) }

structure ConversationWithDetails where
  conversation : ConversationRow
  client : Option UserDetailRow
  lawyer : Option UserDetailRow
  lastMessage : Option MessageRow
  unreadCount : Nat
deriving DecidableEq

/-- Embeds getUserConversations: the user's conversations from the
backend, each enriched with both participants' details, the most recent
message (the messages list is taken in ascending created_at order, so
the descending-order limit-1 query yields its last element) and the
unread count of messages not sent by the requesting user. -/
def getUserConversations (userId : String)
    (resp : Except String (Option (List ConversationRow)))
    (users : List UserDetailRow) (msgs : List MessageRow) :
    ListResult ConversationWithDetails :=
  match resp with
  | .error e => { success := false, error := some e, data := some [] }
  | .ok convs =>
      { success := true, error := none
        data := some ((convs.getD []).map fun c =>
          { conversation := c
            client := singleRowOrNone (users.filter (fun u => u.id == c.client_id))
            lawyer := singleRowOrNone (users.filter (fun u => u.id == c.lawyer_id))
            lastMessage := (msgs.filter (fun m => m.conversation_id == c.id)).getLast?
            unreadCount := (msgs.filter (fun m =>
              m.conversation_id == c.id && m.is_read == false && m.sender_id != userId)).length }) }

/-- A row of the lawyers select with its joined user, practice-area names
(null practice_areas rows kept as none) and the columns the filters read. -/
structure LawyerSearchRow where
  users : UserDetailRow
  law_firm : Option String
  biography : Option String
  average_rating : Option ℚ
  consultation_fee : Option ℚ
  consultation_type : Option String
  practiceAreaNames : List (Option String)
deriving DecidableEq

/-- The filters object of searchLawyers; a field is some exactly when the
source's truthiness test on it passes (so absent, empty or zero filter
values are none). -/
structure SearchFilters where
  specialty : Option String
  minRating : Option ℚ
  maxFee : Option ℚ
  consultationType : Option String
  searchQuery : Option String
deriving DecidableEq

/-- Stable insertion sort standing in for the engine's stable
Array.prototype.sort: x goes before y exactly when le x y. -/
def insertSorted {α : Type} (le : α → α → Bool) (x : α) : List α → List α
  | [] => [x]
  | y :: ys => if le x y then x :: y :: ys else y :: insertSorted le x ys

def stableSort {α : Type} (le : α → α → Bool) : List α → List α
  | [] => []
  | x :: xs => insertSorted le x (stableSort le xs)

/-- The server-side part of the searchLawyers query: rating floor, fee
ceiling (rows with a null column fail a gte/lte comparison) and the
consultation-type or-filter. -/
def serverSideLawyerFilters (f : SearchFilters) (rows : List LawyerSearchRow) :
    List LawyerSearchRow :=
  let rows1 := match f.minRating with
    | some r => rows.filter (fun l => match l.average_rating with
        | some x => decide (r ≤ x)
        | none => false)
    | none => rows
  let rows2 := match f.maxFee with
    | some fee => rows1.filter (fun l => match l.consultation_fee with
        | some x => decide (x ≤ fee)
        | none => false)
    | none => rows1
  match f.consultationType with
  | some t =>
      if jsTrim t != "" then
        rows2.filter (fun l => l.consultation_type == some t || l.consultation_type == some "both")
      else rows2
  | none => rows2

/-- The client-side specialty and free-text filters of searchLawyers. -/
def clientSideLawyerFilters (f : SearchFilters) (rows : List LawyerSearchRow) :
    List LawyerSearchRow :=
  let rows1 := match f.specialty with
    | some s =>
        if jsTrim s != "" then
          rows.filter (fun l => l.practiceAreaNames.any (fun pa => pa == some s))
        else rows
    | none => rows
  match f.searchQuery with
  | some q =>
      if jsTrim q != "" then
        let searchTerm := jsToLower (jsTrim q)
        rows1.filter (fun l =>
          strIncludes (jsToLower l.users.first_name) searchTerm ||
          strIncludes (jsToLower l.users.last_name) searchTerm ||
          strIncludes (jsToLower (l.law_firm.getD "")) searchTerm ||
          strIncludes (jsToLower (l.biography.getD "")) searchTerm)
      else rows1
  | none => rows1

/-- Embeds searchLawyers: backend rows through the server-side filters,
then the client-side filters, then the descending-by-rating stable sort
with null ratings treated as zero. -/
def searchLawyers (f : SearchFilters)
    (resp : Except String (Option (List LawyerSearchRow))) : ListResult LawyerSearchRow :=
  match resp with
  | .error e => { success := false, error := some e, data := some [] }
  | .ok rows =>
      let results := clientSideLawyerFilters f (serverSideLawyerFilters f (rows.getD []))
      let sorted := stableSort
        (fun a b => decide ((b.average_rating.getD 0) ≤ (a.average_rating.getD 0))) results
      { success := true, error := none, data := some sorted }

/-! ## Theorems for the specification claims -/

/-- C1 counterexample: the claim's formula
total = consultationFee + round(consultationFee * serviceFeePercentage)
fails at consultationFee = 0.4, serviceFeePercentage = 0.15: the code
rounds the unrounded sum (0.46, giving 0), not the sum of the fee and the
rounded component (0.4). -/
theorem calculateTotalFee_claim_counterexample :
    ¬ ((calculateTotalFee (2/5) (3/20)).total
        = 2/5 + ((round ((2/5 : ℚ) * (3/20)) : ℤ) : ℚ)) := by
  rw [← mathRound_eq_round]
  norm_num [calculateTotalFee, mathRound]

/-- C1 (amended): calculateTotalFee rounds the fee component and the whole
sum separately: serviceFee = round(consultationFee * pct) and
total = round(consultationFee * (1 + pct)) (the sum of the unrounded
components, rounded). Whenever consultationFee is an integer this total
coincides with the claim's consultationFee + round(consultationFee * pct),
and calculateTotalFee(1000, 0.15) = {1000, 150, 1150}. -/
theorem calculateTotalFee_spec (fee pct : ℚ) :
    (calculateTotalFee fee pct).consultationFee = fee
    ∧ (calculateTotalFee fee pct).serviceFee = ((round (fee * pct) : ℤ) : ℚ)
    ∧ (calculateTotalFee fee pct).total = ((round (fee * (1 + pct)) : ℤ) : ℚ)
    ∧ (∀ n : ℤ, (calculateTotalFee (n : ℚ) pct).total
        = (n : ℚ) + ((round ((n : ℚ) * pct) : ℤ) : ℚ))
    ∧ calculateTotalFee 1000 (15/100) = ⟨1000, 150, 1150⟩ := by
  refine ⟨rfl, ?_, ?_, ?_, ?_⟩
  · simp [calculateTotalFee, mathRound_eq_round]
  · simp only [calculateTotalFee, mathRound_eq_round]
    congr 2
    ring
  · intro n
    simp only [calculateTotalFee, mathRound_eq_round]
    rw [add_comm ((n : ℚ)) ((n : ℚ) * pct), round_add_int]
    push_cast
    ring
  · norm_num [calculateTotalFee, mathRound, FeeBreakdown.mk.injEq]

/-- C2: after the successful path of updateLawyerRating, the lawyer row
holds average_rating = round(mean * 10) / 10 (the mean rounded to one
decimal) and total_reviews = n; with no reviews it holds the fixed
defaults (5.0, 0); no other column is touched. -/
theorem updateLawyerRating_spec (ratings : List ℚ) (lw : LawyerRow) :
    ((updateLawyerRating ratings lw).average_rating =
      if ratings.length = 0 then 5
      else ((round ((ratings.sum / (ratings.length : ℚ)) * 10) : ℤ) : ℚ) / 10)
    ∧ (updateLawyerRating ratings lw).total_reviews = ratings.length
    ∧ (updateLawyerRating ratings lw).id = lw.id := by
  cases ratings with
  | nil => simp [updateLawyerRating]
  | cons r rs =>
      have hfold : (r :: rs).foldl (fun sum x => sum + x) 0 = (r :: rs).sum := by
        rw [List.sum_eq_foldl]
      simp [updateLawyerRating, hfold, mathRound_eq_round]

/-- C3: validateCardNumber strips non-digits and accepts exactly the
inputs whose digit string has length 13 to 19 and passes the Luhn
checksum (from the rightmost digit, every second digit doubled with 9
subtracted above 9, total divisible by 10); the claim's two examples
evaluate as stated. -/
theorem validateCardNumber_spec :
    (∀ s : String,
      validateCardNumber s = true ↔
        (13 ≤ (cardDigits s).length ∧ (cardDigits s).length ≤ 19
          ∧ luhnChecksum (cardDigits s).reverse % 10 = 0))
    ∧ validateCardNumber "4532015112830366" = true
    ∧ validateCardNumber "1234567890123" = false := by
  refine ⟨?_, by decide, by decide⟩
  intro s
  simp only [validateCardNumber]
  by_cases hlt : (cardDigits s).length < 13
  · rw [if_pos (by simp [hlt])]
    simp only [Bool.false_eq_true, false_iff, not_and]
    intro h13
    omega
  · by_cases hgt : (cardDigits s).length > 19
    · rw [if_pos (by simp [hgt])]
      simp only [Bool.false_eq_true, false_iff, not_and]
      intro h13 h19
      omega
    · rw [if_neg (by simp [hlt, hgt])]
      rw [luhnSumAux_false_eq]
      simp only [beq_iff_eq]
      constructor
      · intro h
        exact ⟨by omega, by omega, h⟩
      · rintro ⟨-, -, h⟩
        exact h

/-- A backend environment in which every call succeeds: the duplicate
check finds nothing, auth.signUp returns a confirmed user with a
non-empty identities list, and the inserts succeed. -/
def envHappy : AuthEnv :=
  { emailExists := false, authError := none
    authUser := some { id := "u1", identitiesEmpty := false, confirmedAt := true }
    photoUploadOk := true, userInsertError := none, lawyerInsertError := none }

/-- C4 counterexample: the legacy signUp, given the password "abcdef1"
(7 characters, no uppercase letter), does not fail validation: it calls
auth.signUp and inserts the profile row, ending in success — the claimed
weak-password short-circuit only exists in signUpWithVerification. -/
theorem signUp_weak_password_reaches_backend :
    (signUp "a@b.co" "abcdef1" "John Doe" "client" "12345" false envHappy).1.success = true
    ∧ (signUp "a@b.co" "abcdef1" "John Doe" "client" "12345" false envHappy).2
        = [BackendCall.authSignUp "a@b.co" "abcdef1", BackendCall.insertUserRow "u1"] := by
  constructor
  · decide
  · decide

/-- C4 (amended): signUpWithVerification short-circuits to a failure
result with an empty backend-call trace on a missing field, a malformed
email, or a weak password (shorter than 8 characters or missing an
uppercase letter, a lowercase letter, or a digit); the legacy signUp
short-circuits the same way only for a missing field, a malformed email,
or a password shorter than 6 characters, and performs no character-class
check. -/
theorem signup_validation_short_circuits :
    (∀ (p : SignupParams) (env : AuthEnv),
      (p.email = "" ∨ p.password = "" ∨ p.accountType = "" ∨ p.cnic = ""
        ∨ isValidEmail p.email = false
        ∨ p.password.length < 8
        ∨ p.password.data.any Char.isUpper = false
        ∨ p.password.data.any Char.isLower = false
        ∨ p.password.data.any Char.isDigit = false) →
      (signUpWithVerification p env).1.success = false
      ∧ (signUpWithVerification p env).2 = [])
    ∧ (∀ (email password fullName accountType cnic : String) (photo : Bool) (env : AuthEnv),
      (email = "" ∨ password = "" ∨ fullName = "" ∨ accountType = "" ∨ cnic = ""
        ∨ isValidEmail email = false
        ∨ password.length < 6) →
      (signUp email password fullName accountType cnic photo env).1.success = false
      ∧ (signUp email password fullName accountType cnic photo env).2 = []) := by
  constructor
  · intro p env h
    simp only [signUpWithVerification]
    by_cases h1 : (p.email == "" || p.password == ""
        || (p.firstName ++ " " ++ p.lastName) == "" || p.accountType == "" || p.cnic == "")
    · rw [if_pos h1]
      exact ⟨rfl, rfl⟩
    · rw [if_neg h1]
      by_cases h2 : isValidEmail p.email
      · rw [if_neg (by simp [h2])]
        by_cases h3 : p.password.length < 8
        · rw [if_pos (by simpa using h3)]
          exact ⟨rfl, rfl⟩
        · rw [if_neg (by simpa using h3)]
          by_cases h4 : p.password.data.any Char.isUpper
          · rw [if_neg (by simp [h4])]
            by_cases h5 : p.password.data.any Char.isLower
            · rw [if_neg (by simp [h5])]
              by_cases h6 : p.password.data.any Char.isDigit
              · exfalso
                simp only [Bool.or_eq_true, beq_iff_eq, not_or] at h1
                rcases h with h | h | h | h | h | h | h | h | h
                · exact h1.1.1.1.1 h
                · exact h1.1.1.1.2 h
                · exact h1.1.2 h
                · exact h1.2 h
                · rw [h2] at h
                  exact Bool.true_eq_false.mp h
                · omega
                · rw [h4] at h
                  exact Bool.true_eq_false.mp h
                · rw [h5] at h
                  exact Bool.true_eq_false.mp h
                · rw [h6] at h
                  exact Bool.true_eq_false.mp h
              · rw [if_pos (by simp [h6])]
                exact ⟨rfl, rfl⟩
            · rw [if_pos (by simp [h5])]
              exact ⟨rfl, rfl⟩
          · rw [if_pos (by simp [h4])]
            exact ⟨rfl, rfl⟩
      · rw [if_pos (by simp [h2])]
        exact ⟨rfl, rfl⟩
  · intro email password fullName accountType cnic photo env h
    simp only [signUp]
    by_cases h1 : (email == "" || password == "" || fullName == ""
        || accountType == "" || cnic == "")
    · rw [if_pos h1]
      exact ⟨rfl, rfl⟩
    · rw [if_neg h1]
      by_cases h2 : isValidEmail email
      · rw [if_neg (by simp [h2])]
        by_cases h3 : password.length < 6
        · rw [if_pos (by simpa using h3)]
          exact ⟨rfl, rfl⟩
        · exfalso
          simp only [Bool.or_eq_true, beq_iff_eq, not_or] at h1
          rcases h with h | h | h | h | h | h | h
          · exact h1.1.1.1.1 h
          · exact h1.1.1.1.2 h
          · exact h1.1.1.2 h
          · exact h1.1.2 h
          · exact h1.2 h
          · rw [h2] at h
            exact Bool.true_eq_false.mp h
          · omega
      · rw [if_pos (by simp [h2])]
        exact ⟨rfl, rfl⟩

/-- C4 witness: a signUpWithVerification attempt whose password has no
uppercase letter fails with an empty backend-call trace. -/
theorem signup_validation_short_circuits_witness :
    (signUpWithVerification
        { email := "a@b.co", password := "abcdefg1", firstName := "John"
          lastName := "Doe", accountType := "client", cnic := "12345" } envHappy).1.success = false
    ∧ (signUpWithVerification
        { email := "a@b.co", password := "abcdefg1", firstName := "John"
          lastName := "Doe", accountType := "client", cnic := "12345" } envHappy).2 = [] :=
  signup_validation_short_circuits.1
    { email := "a@b.co", password := "abcdefg1", firstName := "John"
      lastName := "Doe", accountType := "client", cnic := "12345" } envHappy
    (by decide)

/-- C5: under the at-most-one-conversation-per-pair invariant, two
sequential getOrCreateConversation calls for the same user pair (with a
working backend) return the same result row, and the second call inserts
nothing: the state after the second call is the state after the first. -/
theorem getOrCreateConversation_sequential (db : MessagingDB) (u1 u2 : String)
    (hinv : (db.conversations.filter (fun c =>
        c.client_id == (resolveRoles db.users u1 u2).1
        && c.lawyer_id == (resolveRoles db.users u1 u2).2)).length ≤ 1) :
    (getOrCreateConversation db u1 u2 none).1.success = true
    ∧ (getOrCreateConversation (getOrCreateConversation db u1 u2 none).2 u1 u2 none).1
      = (getOrCreateConversation db u1 u2 none).1
    ∧ (getOrCreateConversation (getOrCreateConversation db u1 u2 none).2 u1 u2 none).2
      = (getOrCreateConversation db u1 u2 none).2
    ∧ ((getOrCreateConversation db u1 u2 none).2.conversations.filter (fun c =>
        c.client_id == (resolveRoles db.users u1 u2).1
        && c.lawyer_id == (resolveRoles db.users u1 u2).2)).length ≤ 1 := by
  cases hm : db.conversations.filter (fun c =>
      c.client_id == (resolveRoles db.users u1 u2).1
      && c.lawyer_id == (resolveRoles db.users u1 u2).2) with
  | nil =>
      simp only [getOrCreateConversation, hm, singleRowOrNone, List.filter_append,
        beq_self_eq_true, Bool.and_self, List.filter_cons, List.filter_nil]
      simp [hm]
  | cons c tail =>
      cases tail with
      | nil =>
          simp only [getOrCreateConversation, hm, singleRowOrNone]
          simp [hm]
      | cons d t =>
          rw [hm] at hinv
          simp at hinv

/-- A two-user database (one client, one lawyer, no conversations) for
exercising getOrCreateConversation. -/
def convDB0 : MessagingDB :=
  { users := [{ id := "C", user_type := "client" }, { id := "L", user_type := "lawyer" }]
    conversations := [], nextConversationId := 7 }

/-- C5 witness: the sequential-idempotence theorem applied to a concrete
empty-conversation database. -/
theorem getOrCreateConversation_sequential_witness :
    (getOrCreateConversation convDB0 "C" "L" none).1.success = true
    ∧ (getOrCreateConversation (getOrCreateConversation convDB0 "C" "L" none).2 "C" "L" none).1
      = (getOrCreateConversation convDB0 "C" "L" none).1
    ∧ (getOrCreateConversation (getOrCreateConversation convDB0 "C" "L" none).2 "C" "L" none).2
      = (getOrCreateConversation convDB0 "C" "L" none).2
    ∧ ((getOrCreateConversation convDB0 "C" "L" none).2.conversations.filter (fun c =>
        c.client_id == (resolveRoles convDB0.users "C" "L").1
        && c.lawyer_id == (resolveRoles convDB0.users "C" "L").2)).length ≤ 1 :=
  getOrCreateConversation_sequential convDB0 "C" "L" (by decide)

theorem markMessagesAsReadState_idem (msgs : List MessageRow) (cid : Nat)
    (uid : String) (t1 t2 : String) :
    markMessagesAsReadState (markMessagesAsReadState msgs cid uid t1) cid uid t2
      = markMessagesAsReadState msgs cid uid t1 := by
  simp only [markMessagesAsReadState, List.map_map]
  apply List.map_congr_left
  intro m _
  by_cases h : (m.conversation_id == cid && m.sender_id != uid && m.is_read == false) = true
  · simp only [Bool.and_eq_true, beq_iff_eq, bne_iff_ne, ne_eq] at h
    obtain ⟨⟨hc, hs⟩, hr⟩ := h
    simp [Function.comp, hc, hs, hr]
  · simp only [Function.comp]
    rw [if_neg h, if_neg h]

/-- C6: markMessagesAsRead changes only messages of the given conversation
that were sent by someone else and were unread, only by setting is_read
from false to true (id, conversation, sender and text are untouched, and
an already-read or own or foreign-conversation message is returned
verbatim); running it again returns success and leaves every message
exactly as after the first run. -/
theorem markMessagesAsRead_spec (msgs : List MessageRow) (cid : Nat) (uid : String)
    (t1 t2 : String) :
    (markMessagesAsReadState msgs cid uid t1).length = msgs.length
    ∧ List.Forall₂ (fun m m' : MessageRow =>
        m'.id = m.id ∧ m'.conversation_id = m.conversation_id
        ∧ m'.sender_id = m.sender_id ∧ m'.message_text = m.message_text
        ∧ (m.is_read = true → m' = m)
        ∧ ((m.conversation_id ≠ cid ∨ m.sender_id = uid) → m' = m)
        ∧ (m'.is_read = true ↔
            (m.is_read = true ∨ (m.conversation_id = cid ∧ m.sender_id ≠ uid))))
        msgs (markMessagesAsReadState msgs cid uid t1)
    ∧ markMessagesAsRead (markMessagesAsRead msgs cid uid t1 none).2 cid uid t2 none
      = ({ success := true, error := none }, (markMessagesAsRead msgs cid uid t1 none).2) := by
  refine ⟨by simp [markMessagesAsReadState], ?_, ?_⟩
  · simp only [markMessagesAsReadState]
    rw [List.forall₂_map_right_iff]
    rw [List.forall₂_same]
    intro m _
    by_cases h1 : m.conversation_id = cid
    · by_cases h2 : m.sender_id = uid
      · simp [h1, h2]
      · by_cases h3 : m.is_read
        · simp [h1, h2, h3]
        · simp [h1, h2, h3]
    · simp [h1]
  · simp only [markMessagesAsRead]
    rw [markMessagesAsReadState_idem]

/-- A small message table: one unread foreign message, one own message,
one message of another conversation. -/
def msgsDB0 : List MessageRow :=
  [{ id := 1, conversation_id := 1, sender_id := "L", message_text := "hello"
     is_read := false, read_at := none },
   { id := 2, conversation_id := 1, sender_id := "C", message_text := "hi"
     is_read := false, read_at := none },
   { id := 3, conversation_id := 2, sender_id := "L", message_text := "other"
     is_read := false, read_at := none }]

/-- C6 witness: the idempotence conjunct at a concrete message table. -/
theorem markMessagesAsRead_spec_witness :
    markMessagesAsRead (markMessagesAsRead msgsDB0 1 "C" "t1" none).2 1 "C" "t2" none
      = ({ success := true, error := none }, (markMessagesAsRead msgsDB0 1 "C" "t1" none).2) :=
  (markMessagesAsRead_spec msgsDB0 1 "C" "t1" "t2").2.2

/-- A users table in which the first queried user has an unrecognized
type and the second is a client. -/
def users0 : List UserRow :=
  [{ id := "A", user_type := "admin" }, { id := "B", user_type := "client" }]

/-- C7 counterexample: with user A of type "admin" and user B of type
"client", getOrCreateConversation's role resolution makes A the client
side even though only B resolves to type "client" — the branch never
consults the second user's type, so the claimed whichever-is-client
assignment fails. -/
theorem resolveRoles_claim_counterexample :
    userTypeOf users0 "B" = some "client"
    ∧ userTypeOf users0 "A" ≠ some "client"
    ∧ (resolveRoles users0 "A" "B").1 = "A" := by
  refine ⟨by decide, by decide, by decide⟩

/-- C7 (amended): the role assignment depends only on the first
argument's resolved type: "client" gives (userId1, userId2), "lawyer"
gives (userId2, userId1), and anything else falls back to
(userId1, userId2) regardless of the second user's type. -/
theorem resolveRoles_spec (users : List UserRow) (u1 u2 : String) :
    (userTypeOf users u1 = some "client" → resolveRoles users u1 u2 = (u1, u2))
    ∧ (userTypeOf users u1 = some "lawyer" → resolveRoles users u1 u2 = (u2, u1))
    ∧ (userTypeOf users u1 ≠ some "client" → userTypeOf users u1 ≠ some "lawyer" →
        resolveRoles users u1 u2 = (u1, u2)) := by
  refine ⟨?_, ?_, ?_⟩
  · intro h
    simp [resolveRoles, h]
  · intro h
    simp [resolveRoles, h]
  · intro h1 h2
    simp [resolveRoles, h1, h2]

/-- C7 witness: the fallback conjunct at the concrete table: A of type
"admin" talking to B of type "client" is assigned the client side. -/
theorem resolveRoles_spec_witness :
    resolveRoles users0 "A" "B" = ("A", "B") :=
  (resolveRoles_spec users0 "A" "B").2.2 (by decide) (by decide)

/-- C8: cancelAppointment rewrites exactly the matching row's status to
'cancelled' and keeps every other column and every other row (the table's
id sequence is unchanged, so the row still exists), while
deleteAppointment removes exactly the matching row and keeps the rest
verbatim. -/
theorem cancel_delete_appointment_spec (db : List AppointmentRow) (aid : Nat) :
    (cancelAppointment db aid).2
      = db.map (fun r => if r.id = aid then { r with status := "cancelled" } else r)
    ∧ (cancelAppointment db aid).2.map (fun r => r.id) = db.map (fun r => r.id)
    ∧ (deleteAppointment db aid).2 = db.filter (fun r => decide (r.id ≠ aid))
    ∧ (∀ r ∈ (deleteAppointment db aid).2, r.id ≠ aid)
    ∧ (∀ r ∈ db, r.id ≠ aid → r ∈ (cancelAppointment db aid).2 ∧ r ∈ (deleteAppointment db aid).2)
    ∧ (∀ r ∈ db, r.id = aid → { r with status := "cancelled" } ∈ (cancelAppointment db aid).2) := by
  have hpt : ∀ r : AppointmentRow,
      (if (r.id == aid) = true then applyPatch cancelPatch r else r)
        = (if r.id = aid then { r with status := "cancelled" } else r) := by
    intro r
    by_cases h : r.id = aid
    · simp [h, applyPatch, cancelPatch]
    · simp [h]
  have hcancel : (cancelAppointment db aid).2
      = db.map (fun r => if r.id = aid then { r with status := "cancelled" } else r) := by
    simp only [cancelAppointment, updateAppointment]
    exact List.map_congr_left (fun r _ => hpt r)
  have hdel : (deleteAppointment db aid).2 = db.filter (fun r => decide (r.id ≠ aid)) := by
    have hq : db.filter (fun r => !(r.id == aid)) = db.filter (fun r => decide (r.id ≠ aid)) := by
      apply List.filter_congr
      intro r _
      by_cases h : r.id = aid <;> simp [h]
    by_cases h : (db.filter (fun r => r.id == aid)).isEmpty <;>
      simp [deleteAppointment, h, hq]
  refine ⟨hcancel, ?_, hdel, ?_, ?_, ?_⟩
  · rw [hcancel, List.map_map]
    apply List.map_congr_left
    intro r _
    by_cases h : r.id = aid <;> simp [Function.comp, h]
  · intro r hr
    rw [hdel] at hr
    simpa using (List.mem_filter.mp hr).2
  · intro r hr hne
    constructor
    · rw [hcancel]
      have : (fun x : AppointmentRow =>
          if x.id = aid then { x with status := "cancelled" } else x) r = r := by
        simp [hne]
      exact this ▸ List.mem_map_of_mem _ hr
    · rw [hdel]
      exact List.mem_filter.mpr ⟨hr, by simpa using hne⟩
  · intro r hr heq
    rw [hcancel]
    have : (fun x : AppointmentRow =>
        if x.id = aid then { x with status := "cancelled" } else x) r
        = { r with status := "cancelled" } := by
      simp [heq]
    exact this ▸ List.mem_map_of_mem _ hr

/-- A two-row appointments table. -/
def apptDB0 : List AppointmentRow :=
  [{ id := 1, client_id := "C", lawyer_id := "L", appointment_date := "2025-01-10"
     appointment_time := "10:00", title := "Consult", description := "first"
     meeting_type := "online", status := "scheduled" },
   { id := 2, client_id := "C", lawyer_id := "L", appointment_date := "2025-01-11"
     appointment_time := "11:00", title := "Follow-up", description := "second"
     meeting_type := "in-person", status := "scheduled" }]

/-- C8 witness: cancelling appointment 1 in the concrete table keeps
row 2 verbatim in both the cancel and the delete outcome. -/
theorem cancel_delete_appointment_spec_witness :
    { id := 2, client_id := "C", lawyer_id := "L", appointment_date := "2025-01-11"
      appointment_time := "11:00", title := "Follow-up", description := "second"
      meeting_type := "in-person", status := "scheduled" : AppointmentRow }
        ∈ (cancelAppointment apptDB0 1).2
    ∧ { id := 2, client_id := "C", lawyer_id := "L", appointment_date := "2025-01-11"
        appointment_time := "11:00", title := "Follow-up", description := "second"
        meeting_type := "in-person", status := "scheduled" : AppointmentRow }
        ∈ (deleteAppointment apptDB0 1).2 :=
  (cancel_delete_appointment_spec apptDB0 1).2.2.2.2.1
    { id := 2, client_id := "C", lawyer_id := "L", appointment_date := "2025-01-11"
      appointment_time := "11:00", title := "Follow-up", description := "second"
      meeting_type := "in-person", status := "scheduled" }
    (by decide) (by decide)

/-- C9: processPayment rejects a missing or non-positive amount and a
missing appointment reference with a failure result and an untouched
appointments table; with valid data and a working backend it returns
success carrying the fabricated TXN-(timestamp)-(random) id and rewrites
the referenced appointment's status to 'confirmed', touching nothing
else. -/
theorem processPayment_spec :
    (∀ (p : PaymentData) (db : List AppointmentRow) (ts : Nat) (rnd : String)
        (err : Option String),
      (p.amount = none ∨ (∃ a, p.amount = some a ∧ a ≤ 0) ∨ p.appointmentId = none) →
      (processPayment p db ts rnd err).1.success = false
      ∧ (processPayment p db ts rnd err).1.transactionId = none
      ∧ ((processPayment p db ts rnd err).1.error).isSome = true
      ∧ (processPayment p db ts rnd err).2 = db)
    ∧ (∀ (p : PaymentData) (db : List AppointmentRow) (ts : Nat) (rnd : String)
        (a : ℚ) (aid : Nat),
      p.amount = some a → 0 < a → p.appointmentId = some aid →
      (processPayment p db ts rnd none).1
        = { success := true
            transactionId := some ("TXN-" ++ toString ts ++ "-" ++ rnd)
            error := none }
      ∧ (processPayment p db ts rnd none).2
        = db.map (fun r => if r.id = aid then { r with status := "confirmed" } else r)) := by
  constructor
  · intro p db ts rnd err h
    rcases h with h | ⟨a, ha, hle⟩ | h
    · simp [processPayment, h]
    · simp [processPayment, ha, hle]
    · cases hamt : p.amount with
      | none => simp [processPayment, hamt]
      | some a =>
          by_cases hle : a ≤ 0
          · simp [processPayment, hamt, hle]
          · cases herr : err <;> simp [processPayment, hamt, hle, h, herr]
  · intro p db ts rnd a aid ha hpos haid
    have hle : ¬ a ≤ 0 := not_le.mpr hpos
    constructor
    · simp [processPayment, ha, hle, haid, generateTransactionId]
    · simp only [processPayment, ha, hle, if_neg, haid]
      apply List.map_congr_left
      intro r _
      by_cases h : r.id = aid <;> simp [h]

def pd9 : PaymentData :=
  { amount := some 1500, appointmentId := some 1, paymentMethod := some "card" }

/-- C9 witness: a valid payment over the concrete appointments table
yields the fabricated transaction id and the confirmed status. -/
theorem processPayment_spec_witness :
    (processPayment pd9 apptDB0 7 "K7Q2M1X" none).1
      = { success := true
          transactionId := some ("TXN-" ++ toString 7 ++ "-" ++ "K7Q2M1X")
          error := none }
    ∧ (processPayment pd9 apptDB0 7 "K7Q2M1X" none).2
      = apptDB0.map (fun r => if r.id = 1 then { r with status := "confirmed" } else r) :=
  processPayment_spec.2 pd9 apptDB0 7 "K7Q2M1X" 1500 1 rfl (by norm_num) rfl

/-- C10: each list-returning read always populates its data field with an
array: the error path yields success false with the error message and an
empty array (never a null data field), and the success path yields the
processed rows (an empty array when the backend returns null). -/
theorem list_reads_always_return_arrays :
    (∀ resp : Except String (Option (List PaymentMethodRow)),
      (getUserPaymentMethods resp).data ≠ none
      ∧ ((getUserPaymentMethods resp).success = false →
          (getUserPaymentMethods resp).data = some []))
    ∧ (∀ e : String, getUserPaymentMethods (Except.error e)
        = { success := false, error := some e, data := some [] })
    ∧ (∀ rows, getUserPaymentMethods (Except.ok rows)
        = { success := true, error := none, data := some (rows.getD []) })
    ∧ (∀ (resp : Except String (Option (List MessageRow))) (users : List UserDetailRow),
      (getMessages resp users).data ≠ none
      ∧ ((getMessages resp users).success = false →
          (getMessages resp users).data = some []))
    ∧ (∀ (uid : String) (resp : Except String (Option (List ConversationRow)))
        (users : List UserDetailRow) (msgs : List MessageRow),
      (getUserConversations uid resp users msgs).data ≠ none
      ∧ ((getUserConversations uid resp users msgs).success = false →
          (getUserConversations uid resp users msgs).data = some []))
    ∧ (∀ (f : SearchFilters) (resp : Except String (Option (List LawyerSearchRow))),
      (searchLawyers f resp).data ≠ none
      ∧ ((searchLawyers f resp).success = false →
          (searchLawyers f resp).data = some [])) := by
  refine ⟨?_, fun e => rfl, fun rows => rfl, ?_, ?_, ?_⟩
  · intro resp
    cases resp <;> simp [getUserPaymentMethods]
  · intro resp users
    cases resp <;> simp [getMessages]
  · intro uid resp users msgs
    cases resp <;> simp [getUserConversations]
  · intro f resp
    cases resp <;> simp [searchLawyers]

/-- C10 witness: a failed payment-methods fetch still carries an empty
array in data. -/
theorem list_reads_always_return_arrays_witness :
    (getUserPaymentMethods (Except.error "network down")).data = some [] :=
  (list_reads_always_return_arrays.1 (Except.error "network down")).2 rfl

end BriefCase
